import Mathlib

/-!
Verification of the recursive-descent parser in `src/frontend/Parser.cpp`
(a small Pascal-like frontend).  The parser is shallow-embedded: the token
stream is a `List Token`, the parser's mutable state (`currentToken`,
`lineNumber`, `errorCount`, the symbol table, the diagnostic stream) is a
`PState` record threaded through every production, and the mutually
recursive productions become one fuel-indexed function `drive` over a call
tag, so that every production reduces by kernel computation.  `none` means
the fuel ran out, i.e. the source recursion would still be running.

External collaborators whose headers are not part of the repository
(`Token.h`, `Node.h`, the symbol table, the scanner) are modelled from the
specification's description of their interfaces.
-/

set_option maxRecDepth 10000

namespace SimpleCpp

/-- Modelled from the spec: token kinds produced by the external scanner
(`Token.h` is not in the repository); exactly the kinds `Parser.cpp`
mentions, plus the end-of-input sentinel. -/
inductive TokenType where
  | PROGRAM | BEGIN | END | REPEAT | UNTIL | WHILE | DO | WRITE | WRITELN
  | IDENTIFIER | INTEGER | REAL | CHARACTER | STRING
  | PLUS | MINUS | STAR | SLASH | LPAREN | RPAREN | SEMICOLON | COLON
  | COLON_EQUALS
  | EQUALS | LESS_THAN | LESS_EQUALS | GREATER_THAN | GREATER_EQUALS
  | NOT_EQUALS
  | NOT | END_OF_FILE
  deriving DecidableEq, Repr

/-- Modelled from the spec: a literal token's payload ("numeric value:
present for INTEGER/REAL/STRING/CHARACTER literals").  The parser only
copies values into nodes, so a real literal's payload is carried as its
source text. -/
inductive TokVal where
  | noVal
  | intVal (i : Int)
  | realVal (text : String)
  | strVal (s : String)
  deriving DecidableEq, Repr

/-- Modelled from the spec: a scanner token
{kind, original lexeme, numeric value, line number}. -/
structure Token where
  type : TokenType
  text : String
  value : TokVal
  lineNumber : Nat
  deriving DecidableEq, Repr

/-- Node kinds used by `Parser.cpp` (from the spec's data model). -/
inductive NodeType where
  | PROGRAM | COMPOUND | ASSIGN | VARIABLE | LOOP | TEST | NOT
  | EQ | LT | LE | GT | GE | NE
  | ADD | SUBTRACT | MULTIPLY | DIVIDE
  | WRITE | WRITELN
  | INTEGER_CONSTANT | REAL_CONSTANT | STRING_CONSTANT
  deriving DecidableEq, Repr

/-- Modelled from the spec: the AST node (`Node.h` is not in the
repository): {kind, display text, value payload, line number, optional
non-owning symbol-table reference, ordered children}.  The symbol-table
reference is an index into the symbol table, `none` for an absent binding. -/
inductive Node where
  | mk (type : NodeType) (text : String) (value : TokVal) (lineNumber : Nat)
       (entry : Option Nat) (children : List Node)

def Node.type : Node → NodeType
  | .mk t _ _ _ _ _ => t

def Node.text : Node → String
  | .mk _ x _ _ _ _ => x

def Node.value : Node → TokVal
  | .mk _ _ v _ _ _ => v

def Node.lineNumber : Node → Nat
  | .mk _ _ _ l _ _ => l

def Node.entry : Node → Option Nat
  | .mk _ _ _ _ e _ => e

def Node.children : Node → List Node
  | .mk _ _ _ _ _ cs => cs

/-- `new Node(t)` : all other fields default. -/
def mkNode (t : NodeType) : Node := .mk t "" .noVal 0 none []

/-- Modelled from the spec: `adopt` appends a child node to the parent's
ordered child list (glossary: "Adopt"). -/
def Node.adopt : Node → Node → Node
  | .mk t x v l e cs, c => .mk t x v l e (cs ++ [c])

/-- Adoption of a possibly-null node pointer: a null child contributes no
node to the child list (the spec's children are nodes, never null). -/
def adoptN (p : Node) : Option Node → Node
  | some c => p.adopt c
  | none => p

def Node.setText : Node → String → Node
  | .mk t _ v l e cs, x => .mk t x v l e cs

def Node.setLine : Node → Nat → Node
  | .mk t x v _ e cs, l => .mk t x v l e cs

/-- One diagnostic line as printed by `syntaxError` / `semanticError`
(`syntactic = true` for the SYNTAX ERROR channel). -/
structure Diag where
  syntactic : Bool
  line : Nat
  message : String
  tokenText : String
  deriving DecidableEq, Repr

/-- The parser state threaded through every production: the unread token
stream (the head is the current lookahead; an exhausted list reads as the
end-of-input sentinel), the `lineNumber` member, the cumulative
`errorCount`, the symbol table contents, and the diagnostics printed so
far. -/
structure PState where
  tokens : List Token
  lineNumber : Nat
  errorCount : Nat
  symtab : List String
  diags : List Diag
  deriving DecidableEq, Repr

/-- The end-of-input sentinel the scanner keeps returning once the stream
is exhausted. -/
def eofTok : Token := { type := .END_OF_FILE, text := "", value := .noVal, lineNumber := 0 }

/-- The current lookahead token. -/
def current (st : PState) : Token := st.tokens.headD eofTok

/-- `currentToken = scanner->nextToken()`. -/
def advance (st : PState) : PState := { st with tokens := st.tokens.tail }

/-- Parser.cpp 28-33: tokens that can start a statement. -/
def statementStarters : List TokenType :=
  [.BEGIN, .IDENTIFIER, .REPEAT, .WHILE, .WRITE, .WRITELN]

/-- Parser.cpp 36-40: tokens that can immediately follow a statement. -/
def statementFollowers : List TokenType :=
  [.SEMICOLON, .END, .UNTIL, .END_OF_FILE, .DO]

/-- Parser.cpp 42-47. -/
def relationalOperators : List TokenType :=
  [.EQUALS, .LESS_THAN, .LESS_EQUALS, .GREATER_THAN, .GREATER_EQUALS, .NOT_EQUALS]

/-- Parser.cpp 49-50. -/
def simpleExpressionOperators : List TokenType := [.PLUS, .MINUS]

/-- Parser.cpp 52-53. -/
def termOperators : List TokenType := [.STAR, .SLASH]

/-- Parser.cpp 55 (never consumed by any production). -/
def factorOperators : List TokenType := [.NOT]

/-- Parser.cpp 536-543: panic-mode recovery, discard tokens until the
current token is a statement follower (the exhausted stream reads as
`END_OF_FILE`, which is a follower). -/
def skipToFollower : List Token → List Token
  | [] => []
  | t :: rest =>
      if t.type ∈ statementFollowers then t :: rest else skipToFollower rest

/-- Parser.cpp 530-544 `Parser::syntaxError`: print a SYNTAX ERROR line,
bump the error count, and resynchronize at the nearest statement
follower. -/
def synError (message : String) (st : PState) : PState :=
  { st with
      diags := st.diags ++
        [{ syntactic := true, line := st.lineNumber, message := message,
           tokenText := (current st).text }],
      errorCount := st.errorCount + 1,
      tokens := skipToFollower st.tokens }

/-- Parser.cpp 546-551 `Parser::semanticError`: print a SEMANTIC ERROR
line and bump the error count; no token is skipped. -/
def semError (message : String) (st : PState) : PState :=
  { st with
      diags := st.diags ++
        [{ syntactic := false, line := st.lineNumber, message := message,
           tokenText := (current st).text }],
      errorCount := st.errorCount + 1 }

/-- ASCII lowercasing of one character (`A`..`Z` map to `a`..`z`). -/
def lowerChar (c : Char) : Char :=
  if 65 ≤ c.toNat ∧ c.toNat ≤ 90 then Char.ofNat (c.toNat + 32) else c

/-- Modelled from the spec: the `toLowerCase` helper called by
`Parser.cpp` is defined outside the given source; per the spec it
lowercases a name so symbol-table lookups are case-insensitive. -/
def toLowerCase (s : String) : String := ⟨s.data.map lowerChar⟩

/-- Modelled from the spec: `Symtab.lookup` (the symbol table is external):
case-insensitive search, returning the entry's index. -/
def symtabLookup (tab : List String) (name : String) : Option Nat :=
  tab.findIdx? (fun s => toLowerCase s = toLowerCase name)

/-- Modelled from the spec: `Symtab.enter` appends a new entry preserving
original casing and returns its handle (index). -/
def symtabEnter (tab : List String) (name : String) : Nat × List String :=
  (tab.length, tab ++ [name])

/-- Parser.cpp 480-495 `Parser::parseVariable`: case-insensitive lookup of
the identifier; a miss raises a semantic error; a VARIABLE node carrying
the original-case text and the (possibly absent) entry is produced and the
identifier is consumed. -/
def parseVariable (st : PState) : Node × PState :=
  let variableName := (current st).text
  let variableId := symtabLookup st.symtab (toLowerCase variableName)
  let st1 := if variableId = none then semError "Undeclared identifier" st else st
  (Node.mk .VARIABLE variableName .noVal 0 variableId [], advance st1)

/-- Parser.cpp 497-506. -/
def parseIntegerConstant (st : PState) : Node × PState :=
  (Node.mk .INTEGER_CONSTANT "" (current st).value 0 none [], advance st)

/-- Parser.cpp 508-517. -/
def parseRealConstant (st : PState) : Node × PState :=
  (Node.mk .REAL_CONSTANT "" (current st).value 0 none [], advance st)

/-- Parser.cpp 519-528. -/
def parseStringConstant (st : PState) : Node × PState :=
  (Node.mk .STRING_CONSTANT "" (current st).value 0 none [], advance st)

/-- Parser.cpp 128-130: the assignment target's lookup-or-enter step:
`lookup(toLowerCase(name))`, entering the name if absent.  Returns the
entry handle and the resulting symbol table. -/
def assignLhs (st : PState) : Nat × List String :=
  match symtabLookup st.symtab (toLowerCase (current st).text) with
  | some variableId => (variableId, st.symtab)
  | none => symtabEnter st.symtab (current st).text

/-- Parser.cpp 313-326, the argument of `parseWriteArguments`: one
identifier or character/string literal is adopted (`hasArgument` is the
middle component); anything else raises a syntax error. -/
def writeArgsArg (node : Node) (st1 : PState) : Node × Bool × PState :=
  if (current st1).type = .IDENTIFIER then
    let vp := parseVariable st1
    (node.adopt vp.1, true, vp.2)
  else if (current st1).type = .CHARACTER ∨ (current st1).type = .STRING then
    let sp := parseStringConstant st1
    (node.adopt sp.1, true, sp.2)
  else (node, false, synError "Invalid WRITE or WRITELN statement" st1)

/-- Parser.cpp 331-353, the field-width part of `parseWriteArguments`
(entered only when an argument was adopted): an optional `':' integer`
field width, and — only after a field-width integer was adopted — an
optional nested `':' integer` count of decimal places. -/
def writeArgsWidth (node2 : Node) (st2 : PState) : Node × PState :=
  if (current st2).type = .COLON then
    let st3 := advance st2
    if (current st3).type = .INTEGER then
      let wp := parseIntegerConstant st3
      let node3 := node2.adopt wp.1
      if (current wp.2).type = .COLON then
        let st4 := advance wp.2
        if (current st4).type = .INTEGER then
          let dp := parseIntegerConstant st4
          (node3.adopt dp.1, dp.2)
        else (node3, synError "Invalid count of decimal places" st4)
      else (node3, wp.2)
    else (node2, synError "Invalid field width" st3)
  else (node2, st2)

/-- Parser.cpp 298-361 `Parser::parseWriteArguments`: `'('`, one
identifier or string argument (`writeArgsArg`), the optional field
width and decimal-place count (`writeArgsWidth`), then `')'`; every
violation raises a syntax error.  No recursion, hence no fuel. -/
def parseWriteArguments (node : Node) (st0 : PState) : Node × PState :=
  let st1 := if (current st0).type = .LPAREN then advance st0
             else synError "Missing left parenthesis" st0
  let a := writeArgsArg node st1
  let w := if a.2.1 then writeArgsWidth a.1 a.2.2 else (a.1, a.2.2)
  if (current w.2).type = .RPAREN then (w.1, advance w.2)
  else (w.1, synError "Missing right parenthesis" w.2)

/-- Parser.cpp 269-284 `Parser::parseWriteStatement`: WRITE with no
adopted argument raises a syntax error (the childless node is still
returned). -/
def parseWriteStatement (st : PState) : Node × PState :=
  let wp := parseWriteArguments (mkNode .WRITE) (advance st)
  if wp.1.children.length = 0 then (wp.1, synError "Invalid WRITE statement" wp.2)
  else wp

/-- Parser.cpp 286-296 `Parser::parseWritelnStatement`: arguments are
parsed only when the next token is `'('`. -/
def parseWritelnStatement (st : PState) : Node × PState :=
  let st1 := advance st
  if (current st1).type = .LPAREN then parseWriteArguments (mkNode .WRITELN) st1
  else (mkNode .WRITELN, st1)

/-- Parser.cpp 183-187: the inner loop consuming a run of semicolons. -/
def skipSemis : List Token → List Token
  | [] => []
  | t :: rest => if t.type = .SEMICOLON then skipSemis rest else t :: rest

/-- Parser.cpp 180-192: the separator step at the bottom of the
statement-list loop: a run of semicolons is consumed; otherwise a
statement-starter without a preceding separator raises "Missing ;". -/
def sepStep (st1 : PState) : PState :=
  if (current st1).type = .SEMICOLON then { st1 with tokens := skipSemis st1.tokens }
  else if (current st1).type ∈ statementStarters then synError "Missing ;" st1
  else st1

/-- Parser.cpp 58-87, the pure prefix of `parseProgram`: expect PROGRAM,
the program name (entered into the symbol table and stored as the node's
text), `';'`, and a lookahead check for BEGIN. -/
def programPrelude (st : PState) : Node × PState :=
  let st1 := if (current st).type = .PROGRAM then advance st
             else synError "Expecting PROGRAM" st
  let nameStep : Node × PState :=
    if (current st1).type = .IDENTIFIER then
      ((mkNode .PROGRAM).setText (current st1).text,
       advance { st1 with symtab := (symtabEnter st1.symtab (current st1).text).2 })
    else (mkNode .PROGRAM, synError "Expecting program name" st1)
  let st3 := if (current nameStep.2).type = .SEMICOLON then advance nameStep.2
             else synError "Missing ;" nameStep.2
  let st4 := if (current st3).type ≠ .BEGIN then synError "Expecting BEGIN" st3
             else st3
  (nameStep.1, st4)

/-- Parser.cpp 119-144, the pure prefix of `parseAssignmentStatement`:
look up or enter the left-hand-side name (`assignLhs`), adopt the
VARIABLE node carrying its entry, consume the identifier, and expect
`':='`.  No error of any kind is possible before the `':='` check. -/
def assignPrelude (st : PState) : Node × PState :=
  let lhsStep := assignLhs st
  let lhsNode := Node.mk .VARIABLE (current st).text .noVal 0 (some lhsStep.1) []
  let st1 := advance { st with symtab := lhsStep.2 }
  let st2 := if (current st1).type = .COLON_EQUALS then advance st1
             else synError "Missing :=" st1
  ((mkNode .ASSIGN).adopt lhsNode, st2)

/-- Call tags for the mutually recursive productions of `Parser.cpp`.
`stmtList` carries the parent node being populated and the caller's
terminal token type; the two expression while-loops carry their
accumulated (possibly null) root. -/
inductive PCall where
  | program
  | statement
  | stmtList (parent : Node) (terminal : TokenType)
  | assignStmt
  | compound
  | repeatStmt
  | whileStmt
  | expr
  | simpleExpr
  | simpleLoop (root : Option Node)
  | term
  | termLoop (root : Option Node)
  | factor

/-- Parser.cpp 375-381: the relational token-to-node mapping, with the
source's null fallback. -/
def relOpNode (tokenType : TokenType) : Option Node :=
  if tokenType = .EQUALS then some (mkNode .EQ)
  else if tokenType = .LESS_THAN then some (mkNode .LT)
  else if tokenType = .LESS_EQUALS then some (mkNode .LE)
  else if tokenType = .GREATER_THAN then some (mkNode .GT)
  else if tokenType = .GREATER_EQUALS then some (mkNode .GE)
  else if tokenType = .NOT_EQUALS then some (mkNode .NE)
  else none

/-- The recursive-descent driver: one fuel-indexed step function covering
every mutually recursive production of `Parser.cpp` (each case's body is
the corresponding C++ function; every recursive call spends one unit of
fuel).  The result is the produced node (`none` for the C++ `nullptr`)
and the updated state; the outer `none` means the fuel ran out. -/
def drive : Nat → PCall → PState → Option (Option Node × PState)
  | 0, _, _ => none
  | f + 1, c, st =>
    match c with
    | .program =>
      -- Parser.cpp 58-93
      let p := programPrelude st
      match drive f .compound p.2 with
      | none => none
      | some (cmp, st5) =>
        let st6 := if (current st5).type = .SEMICOLON then synError "Expecting ." st5
                   else st5
        some (some (adoptN p.1 cmp), st6)
    | .statement =>
      -- Parser.cpp 95-117
      let savedLineNumber := (current st).lineNumber
      let st0 := { st with lineNumber := savedLineNumber }
      let res : Option (Option Node × PState) :=
        match (current st0).type with
        | .IDENTIFIER => drive f .assignStmt st0
        | .BEGIN => drive f .compound st0
        | .REPEAT => drive f .repeatStmt st0
        | .WRITE =>
          let wp := parseWriteStatement st0
          some (some wp.1, wp.2)
        | .WRITELN =>
          let wp := parseWritelnStatement st0
          some (some wp.1, wp.2)
        | .WHILE => drive f .whileStmt st0
        | .SEMICOLON => some (none, st0)
        | _ => some (none, synError "Unexpected token" st0)
      match res with
      | none => none
      | some (stmtNode, st') =>
        some (stmtNode.map (fun n => n.setLine savedLineNumber), st')
    | .stmtList parent terminal =>
      -- Parser.cpp 172-194
      if (current st).type = terminal ∨ (current st).type = .END_OF_FILE then
        some (some parent, st)
      else
        match drive f .statement st with
        | none => none
        | some (stmtNode, st1) =>
          drive f (.stmtList (adoptN parent stmtNode) terminal) (sepStep st1)
    | .assignStmt =>
      -- Parser.cpp 119-151
      let p := assignPrelude st
      match drive f .expr p.2 with
      | none => none
      | some (rhsNode, st3) => some (some (adoptN p.1 rhsNode), st3)
    | .compound =>
      -- Parser.cpp 153-170
      let compoundNode := (mkNode .COMPOUND).setLine (current st).lineNumber
      match drive f (.stmtList compoundNode .END) (advance st) with
      | none => none
      | some (cmp, st2) =>
        let st3 := if (current st2).type = .END then advance st2
                   else synError "Expecting END" st2
        some (cmp, st3)
    | .repeatStmt =>
      -- Parser.cpp 196-223
      match drive f (.stmtList (mkNode .LOOP) .UNTIL) (advance st) with
      | none => none
      | some (lp, st2) =>
        let loopNode := lp.getD (mkNode .LOOP)
        if (current st2).type = .UNTIL then
          let ln := (current st2).lineNumber
          let testNode := (mkNode .TEST).setLine ln
          let st3 := advance { st2 with lineNumber := ln }
          match drive f .expr st3 with
          | none => none
          | some (e, st4) =>
            some (some (loopNode.adopt (adoptN testNode e)), st4)
        else some (some loopNode, synError "Expecting UNTIL" st2)
    | .whileStmt =>
      -- Parser.cpp 225-267
      match drive f .expr (advance st) with
      | none => none
      | some (cond, st2) =>
        let testNode := (mkNode .TEST).adopt (adoptN (mkNode .NOT) cond)
        let loopNode := (mkNode .LOOP).adopt testNode
        if (current st2).type = .DO then
          match drive f .statement (advance st2) with
          | none => none
          | some (body, st3) => some (some (adoptN loopNode body), st3)
        else some (some loopNode, synError "Expecting DO" st2)
    | .expr =>
      -- Parser.cpp 363-397
      match drive f .simpleExpr st with
      | none => none
      | some (exprNode, st1) =>
        if (current st1).type ∈ relationalOperators then
          let opNode := relOpNode (current st1).type
          let st2 := advance st1
          match opNode with
          | some op =>
            match drive f .simpleExpr st2 with
            | none => none
            | some (rhs, st3) => some (some (adoptN (adoptN op exprNode) rhs), st3)
          | none => some (exprNode, st2)
        else some (exprNode, st1)
    | .simpleExpr =>
      -- Parser.cpp 399-425
      match drive f .term st with
      | none => none
      | some (t, st1) => drive f (.simpleLoop t) st1
    | .simpleLoop root =>
      -- Parser.cpp 408-422, the +/- while loop
      if (current st).type ∈ simpleExpressionOperators then
        let opNode := mkNode (if (current st).type = .PLUS then .ADD else .SUBTRACT)
        match drive f .term (advance st) with
        | none => none
        | some (t2, st2) =>
          drive f (.simpleLoop (some (adoptN (adoptN opNode root) t2))) st2
      else some (root, st)
    | .term =>
      -- Parser.cpp 427-452
      match drive f .factor st with
      | none => none
      | some (fa, st1) => drive f (.termLoop fa) st1
    | .termLoop root =>
      -- Parser.cpp 436-449, the * and / while loop
      if (current st).type ∈ termOperators then
        let opNode := mkNode (if (current st).type = .STAR then .MULTIPLY else .DIVIDE)
        match drive f .factor (advance st) with
        | none => none
        | some (fa2, st2) =>
          drive f (.termLoop (some (adoptN (adoptN opNode root) fa2))) st2
      else some (root, st)
    | .factor =>
      -- Parser.cpp 454-478
      match (current st).type with
      | .IDENTIFIER =>
        let vp := parseVariable st
        some (some vp.1, vp.2)
      | .INTEGER =>
        let ip := parseIntegerConstant st
        some (some ip.1, ip.2)
      | .REAL =>
        let rp := parseRealConstant st
        some (some rp.1, rp.2)
      | .LPAREN =>
        match drive f .expr (advance st) with
        | none => none
        | some (exprNode, st2) =>
          let st3 := if (current st2).type = .RPAREN then advance st2
                     else synError "Expecting )" st2
          some (exprNode, st3)
      | _ => some (none, synError "Unexpected token" st)

/-- `Parser::parseProgram` at a given fuel. -/
def parseProgram (f : Nat) (st : PState) : Option (Option Node × PState) :=
  drive f .program st

/-- `Parser::parseStatement` at a given fuel. -/
def parseStatement (f : Nat) (st : PState) : Option (Option Node × PState) :=
  drive f .statement st

/-- `Parser::parseStatementList` at a given fuel. -/
def parseStatementList (f : Nat) (parent : Node) (terminal : TokenType)
    (st : PState) : Option (Option Node × PState) :=
  drive f (.stmtList parent terminal) st

/-- `Parser::parseAssignmentStatement` at a given fuel. -/
def parseAssignmentStatement (f : Nat) (st : PState) : Option (Option Node × PState) :=
  drive f .assignStmt st

/-- `Parser::parseCompoundStatement` at a given fuel. -/
def parseCompoundStatement (f : Nat) (st : PState) : Option (Option Node × PState) :=
  drive f .compound st

/-- `Parser::parseRepeatStatement` at a given fuel. -/
def parseRepeatStatement (f : Nat) (st : PState) : Option (Option Node × PState) :=
  drive f .repeatStmt st

/-- `Parser::parseWhileStatement` at a given fuel. -/
def parseWhileStatement (f : Nat) (st : PState) : Option (Option Node × PState) :=
  drive f .whileStmt st

/-- `Parser::parseExpression` at a given fuel. -/
def parseExpression (f : Nat) (st : PState) : Option (Option Node × PState) :=
  drive f .expr st

/-- `Parser::parseSimpleExpression` at a given fuel. -/
def parseSimpleExpression (f : Nat) (st : PState) : Option (Option Node × PState) :=
  drive f .simpleExpr st

/-- `Parser::parseTerm` at a given fuel. -/
def parseTerm (f : Nat) (st : PState) : Option (Option Node × PState) :=
  drive f .term st

/-- `Parser::parseFactor` at a given fuel. -/
def parseFactor (f : Nat) (st : PState) : Option (Option Node × PState) :=
  drive f .factor st

/-- A fresh parser over a token stream: empty symbol table, no errors. -/
def initState (tokens : List Token) : PState :=
  { tokens := tokens, lineNumber := 0, errorCount := 0, symtab := [], diags := [] }

/-- A non-literal token on line 1, as the scanner would deliver it. -/
def tok (tt : TokenType) (text : String) : Token :=
  { type := tt, text := text, value := .noVal, lineNumber := 1 }

/-- An identifier token on line 1. -/
def idTok (name : String) : Token :=
  { type := .IDENTIFIER, text := name, value := .noVal, lineNumber := 1 }

/-- An integer-literal token on line 1. -/
def intTok (i : Int) : Token :=
  { type := .INTEGER, text := toString i, value := .intVal i, lineNumber := 1 }

/-- A string-literal token on line 1. -/
def strTok (s : String) : Token :=
  { type := .STRING, text := s, value := .strVal s, lineNumber := 1 }

/-- The INTEGER_CONSTANT node `parseIntegerConstant` builds for `intTok i`. -/
def intNode (i : Int) : Node := Node.mk .INTEGER_CONSTANT "" (.intVal i) 0 none []

/-! ### Concrete token streams and expected results used by the claims -/

/-- Token stream of `BEGIN a := 1 a := 2 END`. -/
def c1Toks : List Token :=
  [tok .BEGIN "BEGIN", idTok "a", tok .COLON_EQUALS ":=", intTok 1,
   idTok "a", tok .COLON_EQUALS ":=", intTok 2, tok .END "END"]

/-- Token stream of `a = b = c`. -/
def c4Toks : List Token :=
  [idTok "a", tok .EQUALS "=", idTok "b", tok .EQUALS "=", idTok "c"]

/-- The node `parseExpression` builds for `a = b = c`: a single EQ over
the two variables. -/
def c4Node : Node :=
  Node.mk .EQ "" .noVal 0 none
    [Node.mk .VARIABLE "a" .noVal 0 none [], Node.mk .VARIABLE "b" .noVal 0 none []]

/-- The state after parsing `a = b = c`: the second `=` is still the
lookahead, and the only diagnostics are the two semantic (undeclared
identifier) ones — no syntax error. -/
def c4St : PState :=
  { tokens := [tok .EQUALS "=", idTok "c"], lineNumber := 0, errorCount := 2,
    symtab := [],
    diags := [{ syntactic := false, line := 0, message := "Undeclared identifier",
                tokenText := "a" },
              { syntactic := false, line := 0, message := "Undeclared identifier",
                tokenText := "b" }] }

/-- Token stream of `BEGIN y := z END`. -/
def c6Toks : List Token :=
  [tok .BEGIN "BEGIN", idTok "y", tok .COLON_EQUALS ":=", idTok "z", tok .END "END"]

/-- Token stream of `w := 7`. -/
def c5WitToks : List Token := [idTok "w", tok .COLON_EQUALS ":=", intTok 7]

/-- The ASSIGN node produced for `w := 7`. -/
def c5WitNode : Node :=
  Node.mk .ASSIGN "" .noVal 0 none
    [Node.mk .VARIABLE "w" .noVal 0 (some 0) [], intNode 7]

/-- Token stream of `("hi" : 5 : 2)`. -/
def c8WitToks : List Token :=
  [tok .LPAREN "(", strTok "hi", tok .COLON ":", intTok 5, tok .COLON ":",
   intTok 2, tok .RPAREN ")"]

/-- The WRITE node after `parseWriteArguments` on `("hi" : 5 : 2)`. -/
def c8WitNode : Node :=
  Node.mk .WRITE "" .noVal 0 none
    [Node.mk .STRING_CONSTANT "" (.strVal "hi") 0 none [], intNode 5, intNode 2]

/-- Token stream of `WRITE("hi")`. -/
def c9WitToks : List Token :=
  [tok .WRITE "WRITE", tok .LPAREN "(", strTok "hi", tok .RPAREN ")"]

/-- The node `parseWriteStatement` builds for `WRITE("hi")`. -/
def c9WitNode : Node :=
  Node.mk .WRITE "" .noVal 0 none [Node.mk .STRING_CONSTANT "" (.strVal "hi") 0 none []]

/-- Token stream of `1 = = 2 ;`. -/
def c10Toks : List Token :=
  [intTok 1, tok .EQUALS "=", tok .EQUALS "=", intTok 2, tok .SEMICOLON ";"]

/-- Token stream of `1 = 2`. -/
def c10WitToks : List Token := [intTok 1, tok .EQUALS "=", intTok 2]

/-- Token stream of `REPEAT x := x + 1 UNTIL x = 10`. -/
def c2rToks : List Token :=
  [tok .REPEAT "REPEAT", idTok "x", tok .COLON_EQUALS ":=", idTok "x",
   tok .PLUS "+", intTok 1, tok .UNTIL "UNTIL", idTok "x", tok .EQUALS "=",
   intTok 10]

/-- The LOOP node for `REPEAT x := x + 1 UNTIL x = 10`: body first, TEST
last. -/
def c2rNode : Node :=
  Node.mk .LOOP "" .noVal 0 none
    [Node.mk .ASSIGN "" .noVal 1 none
       [Node.mk .VARIABLE "x" .noVal 0 (some 0) [],
        Node.mk .ADD "" .noVal 0 none
          [Node.mk .VARIABLE "x" .noVal 0 (some 0) [], intNode 1]],
     Node.mk .TEST "" .noVal 1 none
       [Node.mk .EQ "" .noVal 0 none
          [Node.mk .VARIABLE "x" .noVal 0 (some 0) [], intNode 10]]]

/-- Token stream of `WHILE x < 10 DO x := x + 1`. -/
def c2wToks : List Token :=
  [tok .WHILE "WHILE", idTok "x", tok .LESS_THAN "<", intTok 10, tok .DO "DO",
   idTok "x", tok .COLON_EQUALS ":=", idTok "x", tok .PLUS "+", intTok 1]

/-- The LOOP node for `WHILE x < 10 DO x := x + 1`: TEST(NOT(...)) first,
body second. -/
def c2wNode : Node :=
  Node.mk .LOOP "" .noVal 0 none
    [Node.mk .TEST "" .noVal 0 none
       [Node.mk .NOT "" .noVal 0 none
          [Node.mk .LT "" .noVal 0 none
             [Node.mk .VARIABLE "x" .noVal 0 (some 0) [], intNode 10]]],
     Node.mk .ASSIGN "" .noVal 1 none
       [Node.mk .VARIABLE "x" .noVal 0 (some 0) [],
        Node.mk .ADD "" .noVal 0 none
          [Node.mk .VARIABLE "x" .noVal 0 (some 0) [], intNode 1]]]

/-- The token tail of a `+`-chain: `+ w1 + w2 ...`. -/
def chainRest : List Int → List Token
  | [] => []
  | w :: ws => tok .PLUS "+" :: intTok w :: chainRest ws

/-- The tokens of `v + w1 + w2 + ...`. -/
def chainToks (v : Int) (vs : List Int) : List Token := intTok v :: chainRest vs

/-- The left-to-right fold the `+` while-loop performs: each step wraps
the accumulated root as the LEFT child of a fresh ADD node. -/
def foldAdd (r : Node) : List Int → Node
  | [] => r
  | w :: ws => foldAdd (((mkNode .ADD).adopt r).adopt (intNode w)) ws

/-- Token stream of `x := 1 + 2 * 3 ;`. -/
def c3Toks : List Token :=
  [idTok "x", tok .COLON_EQUALS ":=", intTok 1, tok .PLUS "+", intTok 2,
   tok .STAR "*", intTok 3, tok .SEMICOLON ";"]

/-- The ASSIGN node for `x := 1 + 2 * 3`: multiplication binds tighter,
so the ADD right child is the MULTIPLY node. -/
def c3Node : Node :=
  Node.mk .ASSIGN "" .noVal 0 none
    [Node.mk .VARIABLE "x" .noVal 0 (some 0) [],
     Node.mk .ADD "" .noVal 0 none
       [intNode 1,
        Node.mk .MULTIPLY "" .noVal 0 none [intNode 2, intNode 3]]]

/-- The parser state at the stuck point: the lookahead is `DO`, `END`
follows, and the rest of the state is arbitrary. -/
def stuckSt (ln ec : Nat) (tab : List String) (ds : List Diag) : PState :=
  { tokens := [tok .DO "DO", tok .END "END"], lineNumber := ln, errorCount := ec,
    symtab := tab, diags := ds }

/-- Token stream of `PROGRAM p ; BEGIN DO END`. -/
def c7Toks : List Token :=
  [tok .PROGRAM "PROGRAM", idTok "p", tok .SEMICOLON ";", tok .BEGIN "BEGIN",
   tok .DO "DO", tok .END "END"]


/-! ### The error count only ever grows

`errorCount` is incremented by `synError` and `semError` and touched by
nothing else; every production can only raise it.  These lemmas feed the
claims that read "parsed without error" as "the error count came back
unchanged". -/

@[simp] theorem advance_errorCount (st : PState) :
    (advance st).errorCount = st.errorCount := rfl

@[simp] theorem synError_errorCount (m : String) (st : PState) :
    (synError m st).errorCount = st.errorCount + 1 := rfl

@[simp] theorem semError_errorCount (m : String) (st : PState) :
    (semError m st).errorCount = st.errorCount + 1 := rfl

@[simp] theorem parseIntegerConstant_snd (st : PState) :
    (parseIntegerConstant st).2 = advance st := rfl

@[simp] theorem parseRealConstant_snd (st : PState) :
    (parseRealConstant st).2 = advance st := rfl

@[simp] theorem parseStringConstant_snd (st : PState) :
    (parseStringConstant st).2 = advance st := rfl

theorem parseVariable_errorCount_le (st : PState) :
    st.errorCount ≤ (parseVariable st).2.errorCount := by
  by_cases h : symtabLookup st.symtab (toLowerCase (current st).text) = none <;>
    simp [parseVariable, h]

theorem writeArgsArg_errorCount_le (node : Node) (st : PState) :
    st.errorCount ≤ (writeArgsArg node st).2.2.errorCount := by
  have hv := parseVariable_errorCount_le st
  unfold writeArgsArg
  repeat' split
  all_goals simp_all

theorem writeArgsWidth_errorCount_le (node : Node) (st : PState) :
    st.errorCount ≤ (writeArgsWidth node st).2.errorCount := by
  unfold writeArgsWidth
  dsimp only
  repeat' split
  all_goals simp [advance, synError]

theorem parseWriteArguments_errorCount_le (node : Node) (st0 : PState) :
    st0.errorCount ≤ (parseWriteArguments node st0).2.errorCount := by
  unfold parseWriteArguments
  dsimp only
  set st1 := (if (current st0).type = TokenType.LPAREN then advance st0
              else synError "Missing left parenthesis" st0) with hst1
  have h1 : st0.errorCount ≤ st1.errorCount := by rw [hst1]; split <;> simp
  set a := writeArgsArg node st1 with ha
  have h2 : st1.errorCount ≤ a.2.2.errorCount := writeArgsArg_errorCount_le node st1
  set w := (if a.2.1 = true then writeArgsWidth a.1 a.2.2 else (a.1, a.2.2)) with hw
  have h3 : a.2.2.errorCount ≤ w.2.errorCount := by
    rw [hw]; split
    · exact writeArgsWidth_errorCount_le _ _
    · exact le_refl _
  split <;> simp <;> omega

theorem parseWriteStatement_errorCount_le (st : PState) :
    st.errorCount ≤ (parseWriteStatement st).2.errorCount := by
  have h := parseWriteArguments_errorCount_le (mkNode .WRITE) (advance st)
  unfold parseWriteStatement
  dsimp only
  split <;> simp_all
  omega

theorem parseWritelnStatement_errorCount_le (st : PState) :
    st.errorCount ≤ (parseWritelnStatement st).2.errorCount := by
  have h := parseWriteArguments_errorCount_le (mkNode .WRITELN) (advance st)
  unfold parseWritelnStatement
  dsimp only
  split <;> simp_all

theorem sepStep_errorCount_le (st : PState) :
    st.errorCount ≤ (sepStep st).errorCount := by
  unfold sepStep
  repeat' split
  all_goals simp

theorem programPrelude_errorCount_le (st : PState) :
    st.errorCount ≤ (programPrelude st).2.errorCount := by
  unfold programPrelude
  dsimp only
  repeat' split
  all_goals simp
  all_goals omega

theorem assignPrelude_errorCount_le (st : PState) :
    st.errorCount ≤ (assignPrelude st).2.errorCount := by
  unfold assignPrelude
  dsimp only
  repeat' split
  all_goals simp

/-! ### Structural facts about node construction -/

@[simp] theorem Node.adopt_type (p c : Node) : (p.adopt c).type = p.type := by
  cases p; rfl

@[simp] theorem Node.adopt_children (p c : Node) :
    (p.adopt c).children = p.children ++ [c] := by
  cases p; rfl

@[simp] theorem adoptN_type (p : Node) (o : Option Node) :
    (adoptN p o).type = p.type := by
  cases o <;> simp [adoptN]

@[simp] theorem adoptN_children (p : Node) (o : Option Node) :
    (adoptN p o).children = p.children ++ o.toList := by
  cases o <;> simp [adoptN]

@[simp] theorem mkNode_type (t : NodeType) : (mkNode t).type = t := rfl

@[simp] theorem mkNode_children (t : NodeType) : (mkNode t).children = [] := rfl

@[simp] theorem Node.setLine_type (n : Node) (l : Nat) : (n.setLine l).type = n.type := by
  cases n; rfl

@[simp] theorem Node.setLine_children (n : Node) (l : Nat) :
    (n.setLine l).children = n.children := by
  cases n; rfl

@[simp] theorem Node.setText_type (n : Node) (x : String) : (n.setText x).type = n.type := by
  cases n; rfl

@[simp] theorem parseIntegerConstant_fst_type (st : PState) :
    (parseIntegerConstant st).1.type = .INTEGER_CONSTANT := rfl

@[simp] theorem parseVariable_fst_type (st : PState) :
    (parseVariable st).1.type = .VARIABLE := rfl

@[simp] theorem parseStringConstant_fst_type (st : PState) :
    (parseStringConstant st).1.type = .STRING_CONSTANT := rfl

/-- The error count never decreases across any production: `errorCount`
is only ever incremented (`synError`, `semError`), so a production run
that comes back with the same count raised no error anywhere inside. -/
theorem drive_errorCount_le :
    ∀ f c st r st', drive f c st = some (r, st') →
      st.errorCount ≤ st'.errorCount := by
  intro f
  induction f with
  | zero => intro c st r st' h; simp [drive] at h
  | succ f ih =>
    intro c st r st' h
    cases c with
    | program =>
      simp only [drive] at h
      cases hd : drive f .compound (programPrelude st).2 with
      | none => rw [hd] at h; simp at h
      | some p =>
        obtain ⟨cmp, st5⟩ := p
        rw [hd] at h
        have h0 := programPrelude_errorCount_le st
        have h1 := ih _ _ _ _ hd
        simp only [Option.some.injEq, Prod.mk.injEq] at h
        obtain ⟨-, h2⟩ := h
        subst h2
        split <;> simp <;> omega
    | statement =>
      simp only [drive] at h
      cases hd : (match (current { st with lineNumber := (current st).lineNumber }).type with
        | TokenType.IDENTIFIER => drive f .assignStmt { st with lineNumber := (current st).lineNumber }
        | TokenType.BEGIN => drive f .compound { st with lineNumber := (current st).lineNumber }
        | TokenType.REPEAT => drive f .repeatStmt { st with lineNumber := (current st).lineNumber }
        | TokenType.WRITE =>
            some (some (parseWriteStatement { st with lineNumber := (current st).lineNumber }).1,
                  (parseWriteStatement { st with lineNumber := (current st).lineNumber }).2)
        | TokenType.WRITELN =>
            some (some (parseWritelnStatement { st with lineNumber := (current st).lineNumber }).1,
                  (parseWritelnStatement { st with lineNumber := (current st).lineNumber }).2)
        | TokenType.WHILE => drive f .whileStmt { st with lineNumber := (current st).lineNumber }
        | TokenType.SEMICOLON => some (none, { st with lineNumber := (current st).lineNumber })
        | _ => some (none, synError "Unexpected token" { st with lineNumber := (current st).lineNumber })
        : Option (Option Node × PState)) with
      | none => rw [hd] at h; simp at h
      | some p =>
        obtain ⟨stmtNode, st1⟩ := p
        rw [hd] at h
        simp only [Option.some.injEq, Prod.mk.injEq] at h
        obtain ⟨-, h2⟩ := h
        subst h2
        have hle : ({ st with lineNumber := (current st).lineNumber } : PState).errorCount ≤ st1.errorCount := by
          split at hd
          all_goals first
            | exact ih _ _ _ _ hd
            | (have hw := parseWriteStatement_errorCount_le { st with lineNumber := (current st).lineNumber }
               simp only [Option.some.injEq, Prod.mk.injEq] at hd
               obtain ⟨-, hd2⟩ := hd; subst hd2; exact hw)
            | (have hw := parseWritelnStatement_errorCount_le { st with lineNumber := (current st).lineNumber }
               simp only [Option.some.injEq, Prod.mk.injEq] at hd
               obtain ⟨-, hd2⟩ := hd; subst hd2; exact hw)
            | (simp only [Option.some.injEq, Prod.mk.injEq] at hd
               obtain ⟨-, hd2⟩ := hd; subst hd2; simp)
        simpa using hle
    | stmtList parent terminal =>
      simp only [drive] at h
      split at h
      · simp only [Option.some.injEq, Prod.mk.injEq] at h
        obtain ⟨-, h2⟩ := h; subst h2; exact le_refl _
      · cases hd : drive f .statement st with
        | none => rw [hd] at h; simp at h
        | some p =>
          obtain ⟨stmtNode, st1⟩ := p
          rw [hd] at h
          have h1 := ih _ _ _ _ hd
          have h2 := sepStep_errorCount_le st1
          have h3 := ih _ _ _ _ h
          omega
    | assignStmt =>
      simp only [drive] at h
      cases hd : drive f .expr (assignPrelude st).2 with
      | none => rw [hd] at h; simp at h
      | some p =>
        obtain ⟨rhsNode, st3⟩ := p
        rw [hd] at h
        have h0 := assignPrelude_errorCount_le st
        have h1 := ih _ _ _ _ hd
        simp only [Option.some.injEq, Prod.mk.injEq] at h
        obtain ⟨-, h2⟩ := h
        subst h2
        omega
    | compound =>
      simp only [drive] at h
      cases hd : drive f (.stmtList ((mkNode .COMPOUND).setLine (current st).lineNumber) .END)
          (advance st) with
      | none => rw [hd] at h; simp at h
      | some p =>
        obtain ⟨cmp, st2⟩ := p
        rw [hd] at h
        have h1 := ih _ _ _ _ hd
        simp only [advance_errorCount] at h1
        simp only [Option.some.injEq, Prod.mk.injEq] at h
        obtain ⟨-, h2⟩ := h
        subst h2
        split <;> simp <;> omega
    | repeatStmt =>
      simp only [drive] at h
      cases hd : drive f (.stmtList (mkNode .LOOP) .UNTIL) (advance st) with
      | none => rw [hd] at h; simp at h
      | some p =>
        obtain ⟨lp, st2⟩ := p
        rw [hd] at h
        simp only [] at h
        have h1 := ih _ _ _ _ hd
        simp only [advance_errorCount] at h1
        split at h
        · split at h
          · simp at h
          · rename_i q e st4 heq
            have h2 := ih _ _ _ _ heq
            simp only [Option.some.injEq, Prod.mk.injEq] at h
            obtain ⟨-, h3⟩ := h
            subst h3
            simp only [advance_errorCount] at h2
            omega
        · simp only [Option.some.injEq, Prod.mk.injEq] at h
          obtain ⟨-, h3⟩ := h
          subst h3
          simp
          omega
    | whileStmt =>
      simp only [drive] at h
      cases hd : drive f .expr (advance st) with
      | none => rw [hd] at h; simp at h
      | some p =>
        obtain ⟨cond, st2⟩ := p
        rw [hd] at h
        simp only [] at h
        have h1 := ih _ _ _ _ hd
        simp only [advance_errorCount] at h1
        split at h
        · split at h
          · simp at h
          · rename_i q body st3 heq
            have h2 := ih _ _ _ _ heq
            simp only [Option.some.injEq, Prod.mk.injEq] at h
            obtain ⟨-, h3⟩ := h
            subst h3
            simp only [advance_errorCount] at h2
            omega
        · simp only [Option.some.injEq, Prod.mk.injEq] at h
          obtain ⟨-, h3⟩ := h
          subst h3
          simp
          omega
    | expr =>
      simp only [drive] at h
      cases hd : drive f .simpleExpr st with
      | none => rw [hd] at h; simp at h
      | some p =>
        obtain ⟨exprNode, st1⟩ := p
        rw [hd] at h
        simp only [] at h
        have h1 := ih _ _ _ _ hd
        split at h
        · split at h
          · split at h
            · simp at h
            · rename_i q rhs st3 heq
              have h2 := ih _ _ _ _ heq
              simp only [Option.some.injEq, Prod.mk.injEq] at h
              obtain ⟨-, h3⟩ := h
              subst h3
              simp only [advance_errorCount] at h2
              omega
          · simp only [Option.some.injEq, Prod.mk.injEq] at h
            obtain ⟨-, h3⟩ := h
            subst h3
            simpa using h1
        · simp only [Option.some.injEq, Prod.mk.injEq] at h
          obtain ⟨-, h3⟩ := h
          subst h3
          exact h1
    | simpleExpr =>
      simp only [drive] at h
      cases hd : drive f .term st with
      | none => rw [hd] at h; simp at h
      | some p =>
        obtain ⟨t, st1⟩ := p
        rw [hd] at h
        have h1 := ih _ _ _ _ hd
        have h2 := ih _ _ _ _ h
        omega
    | simpleLoop root =>
      simp only [drive] at h
      split at h
      · cases hd : drive f .term (advance st) with
        | none => rw [hd] at h; simp at h
        | some p =>
          obtain ⟨t2, st2⟩ := p
          rw [hd] at h
          have h1 := ih _ _ _ _ hd
          have h2 := ih _ _ _ _ h
          simp only [advance_errorCount] at h1
          omega
      · simp only [Option.some.injEq, Prod.mk.injEq] at h
        obtain ⟨-, h2⟩ := h; subst h2; exact le_refl _
    | term =>
      simp only [drive] at h
      cases hd : drive f .factor st with
      | none => rw [hd] at h; simp at h
      | some p =>
        obtain ⟨fa, st1⟩ := p
        rw [hd] at h
        have h1 := ih _ _ _ _ hd
        have h2 := ih _ _ _ _ h
        omega
    | termLoop root =>
      simp only [drive] at h
      split at h
      · cases hd : drive f .factor (advance st) with
        | none => rw [hd] at h; simp at h
        | some p =>
          obtain ⟨fa2, st2⟩ := p
          rw [hd] at h
          have h1 := ih _ _ _ _ hd
          have h2 := ih _ _ _ _ h
          simp only [advance_errorCount] at h1
          omega
      · simp only [Option.some.injEq, Prod.mk.injEq] at h
        obtain ⟨-, h2⟩ := h; subst h2; exact le_refl _
    | factor =>
      simp only [drive] at h
      split at h
      all_goals first
        | (have hv := parseVariable_errorCount_le st
           simp only [Option.some.injEq, Prod.mk.injEq] at h
           obtain ⟨-, h2⟩ := h; subst h2; exact hv)
        | (simp only [Option.some.injEq, Prod.mk.injEq] at h
           obtain ⟨-, h2⟩ := h; subst h2; simp)
        | (cases hd : drive f .expr (advance st) with
           | none => rw [hd] at h; simp at h
           | some p =>
             obtain ⟨exprNode, st2⟩ := p
             rw [hd] at h
             have h1 := ih _ _ _ _ hd
             simp only [Option.some.injEq, Prod.mk.injEq] at h
             obtain ⟨-, h2⟩ := h
             subst h2
             simp only [advance_errorCount] at h1
             split <;> simp <;> omega)

/-! ### C1: missing separator between statements -/

theorem C1_missing_separator_cex :
    ((parseStatement 50 (initState c1Toks)).map
        (fun r => ((r.1.getD (mkNode .PROGRAM)).children.length, r.2.errorCount)))
      = some (1, 1) ∧
    ((parseStatement 50 (initState c1Toks)).map
        (fun r => (r.1.getD (mkNode .PROGRAM)).children.length)) ≠ some 2 := by
  exact ⟨rfl, by decide⟩

/-- C1 (amended): parsing the token sequence of `BEGIN a := 1 a := 2 END`
raises exactly one syntax error ("Missing ;"), and the returned COMPOUND
node contains only the FIRST assignment, `ASSIGN(VARIABLE(a),
INTEGER_CONSTANT(1))`; the second assignment is consumed by the
panic-mode recovery and produces no node. -/
theorem C1_missing_separator :
    parseStatement 50 (initState c1Toks) =
      some (some (Node.mk .COMPOUND "" .noVal 1 none
            [Node.mk .ASSIGN "" .noVal 1 none
              [Node.mk .VARIABLE "a" .noVal 0 (some 0) [], intNode 1]]),
        { tokens := [], lineNumber := 1, errorCount := 1, symtab := ["a"],
          diags := [{ syntactic := true, line := 1, message := "Missing ;",
                      tokenText := "a" }] }) := rfl

/-! ### C4: at most one relational comparison per expression -/

theorem C4_at_most_one_relational :
    parseExpression 50 (initState c4Toks) = some (some c4Node, c4St) ∧
    c4Node.children.map Node.type = [.VARIABLE, .VARIABLE] ∧
    (current c4St).type = .EQUALS ∧
    c4St.diags.countP (fun d => d.syntactic) = 0 :=
  ⟨rfl, rfl, rfl, rfl⟩

/-! ### C6: undeclared identifier in expression position -/

theorem C6_undeclared_identifier_semantic_error :
    (∀ st : PState, symtabLookup st.symtab (toLowerCase (current st).text) = none →
        parseVariable st =
          (Node.mk .VARIABLE (current st).text .noVal 0 none [],
           { st with tokens := st.tokens.tail,
                     errorCount := st.errorCount + 1,
                     diags := st.diags ++
                       [{ syntactic := false, line := st.lineNumber,
                          message := "Undeclared identifier",
                          tokenText := (current st).text }] }))
    ∧ parseStatement 50 (initState c6Toks) =
        some (some (Node.mk .COMPOUND "" .noVal 1 none
              [Node.mk .ASSIGN "" .noVal 1 none
                [Node.mk .VARIABLE "y" .noVal 0 (some 0) [],
                 Node.mk .VARIABLE "z" .noVal 0 none []]]),
          { tokens := [], lineNumber := 1, errorCount := 1, symtab := ["y"],
            diags := [{ syntactic := false, line := 1,
                        message := "Undeclared identifier", tokenText := "z" }] }) := by
  constructor
  · intro st h
    simp [parseVariable, h, semError, advance]
  · rfl

/-- C6 witness: the general part applied to the one-token stream `z` with
an empty symbol table. -/
theorem C6_undeclared_identifier_semantic_error_wit :
    parseVariable (initState [idTok "z"]) =
      (Node.mk .VARIABLE "z" .noVal 0 none [],
       { tokens := [], lineNumber := 0, errorCount := 1, symtab := [],
         diags := [{ syntactic := false, line := 0,
                     message := "Undeclared identifier", tokenText := "z" }] }) :=
  C6_undeclared_identifier_semantic_error.1 (initState [idTok "z"]) rfl

/-! ### C5: assignment targets are implicitly declared -/

/-- C5: (i) every ASSIGN node a successful `parseAssignmentStatement`
returns has as first child a VARIABLE node with a present (`some`)
symbol-table entry; (ii) when the case-insensitive lookup of the target
misses, `assignLhs` enters the original-case name into the table;
(iii) the left-hand-side handling (`assignLhs` plus consuming the
identifier) leaves the error count and the diagnostics untouched — no
"undeclared" error is possible for an assignment target. -/
theorem C5_assignment_lhs_entered :
    (∀ f st n st', parseAssignmentStatement f st = some (some n, st') →
        n.type = .ASSIGN ∧
        ∃ id rest, n.children =
          Node.mk .VARIABLE (current st).text .noVal 0 (some id) [] :: rest)
    ∧ (∀ st : PState, symtabLookup st.symtab (toLowerCase (current st).text) = none →
        assignLhs st = (st.symtab.length, st.symtab ++ [(current st).text]))
    ∧ (∀ st : PState,
        (advance { st with symtab := (assignLhs st).2 }).errorCount = st.errorCount ∧
        (advance { st with symtab := (assignLhs st).2 }).diags = st.diags) := by
  refine ⟨?_, ?_, ?_⟩
  · intro f st n st' h
    cases f with
    | zero => simp [parseAssignmentStatement, drive] at h
    | succ f =>
      simp only [parseAssignmentStatement, drive] at h
      cases hd : drive f .expr (assignPrelude st).2 with
      | none => rw [hd] at h; simp at h
      | some p =>
        obtain ⟨rhs, st3⟩ := p
        rw [hd] at h
        simp only [Option.some.injEq, Prod.mk.injEq] at h
        obtain ⟨hn, -⟩ := h
        have hfst : (assignPrelude st).1 =
            (mkNode .ASSIGN).adopt
              (Node.mk .VARIABLE (current st).text .noVal 0 (some (assignLhs st).1) []) := rfl
        constructor
        · rw [← hn, adoptN_type, hfst, Node.adopt_type, mkNode_type]
        · refine ⟨(assignLhs st).1, rhs.toList, ?_⟩
          rw [← hn, adoptN_children, hfst, Node.adopt_children, mkNode_children]
          simp
  · intro st h
    simp [assignLhs, h, symtabEnter]
  · intro st
    exact ⟨rfl, rfl⟩

/-- C5 witness: all three parts applied at `w := 7` on a fresh state. -/
theorem C5_assignment_lhs_entered_wit :
    (c5WitNode.type = .ASSIGN ∧
      ∃ id rest, c5WitNode.children =
        Node.mk .VARIABLE (current (initState c5WitToks)).text .noVal 0 (some id) [] :: rest)
    ∧ assignLhs (initState c5WitToks) =
        ((initState c5WitToks).symtab.length,
         (initState c5WitToks).symtab ++ [(current (initState c5WitToks)).text])
    ∧ ((advance { initState c5WitToks with
          symtab := (assignLhs (initState c5WitToks)).2 }).errorCount =
            (initState c5WitToks).errorCount ∧
        (advance { initState c5WitToks with
          symtab := (assignLhs (initState c5WitToks)).2 }).diags =
            (initState c5WitToks).diags) :=
  ⟨C5_assignment_lhs_entered.1 50 (initState c5WitToks) c5WitNode
      { tokens := [], lineNumber := 0, errorCount := 0, symtab := ["w"], diags := [] }
      rfl,
   C5_assignment_lhs_entered.2.1 (initState c5WitToks) rfl,
   C5_assignment_lhs_entered.2.2 (initState c5WitToks)⟩

/-! ### C8: write-args field width and decimal places -/

theorem writeArgsArg_shape (node : Node) (st : PState) :
    ((writeArgsArg node st).1 = node ∧ (writeArgsArg node st).2.1 = false) ∨
    (∃ a, (writeArgsArg node st).1 = node.adopt a ∧ (writeArgsArg node st).2.1 = true) := by
  unfold writeArgsArg
  dsimp only
  repeat' split
  · right; exact ⟨_, rfl, rfl⟩
  · right; exact ⟨_, rfl, rfl⟩
  · left; exact ⟨rfl, rfl⟩

theorem writeArgsWidth_shape (node : Node) (st : PState) :
    (writeArgsWidth node st).1 = node ∨
    (∃ w, (writeArgsWidth node st).1 = node.adopt w ∧ w.type = .INTEGER_CONSTANT) ∨
    (∃ w d, (writeArgsWidth node st).1 = (node.adopt w).adopt d ∧
      w.type = .INTEGER_CONSTANT ∧ d.type = .INTEGER_CONSTANT) := by
  unfold writeArgsWidth
  dsimp only
  repeat' split
  · right; right; exact ⟨_, _, rfl, rfl, rfl⟩
  · right; left; exact ⟨_, rfl, rfl⟩
  · right; left; exact ⟨_, rfl, rfl⟩
  · left; rfl
  · left; rfl

/-- C8: whatever `parseWriteArguments` adds to a node's children is one
of: nothing (no argument adopted), just the argument, argument plus a
field-width INTEGER_CONSTANT, or argument plus field width plus a
decimal-places INTEGER_CONSTANT.  A decimal-places child can only appear
after a field-width child: the second `':' integer` is only read once a
field-width integer has been adopted. -/
theorem C8_write_args_width_before_decimals :
    ∀ node st res st', parseWriteArguments node st = (res, st') →
      res.children = node.children ∨
      (∃ a, res.children = node.children ++ [a]) ∨
      (∃ a w, res.children = node.children ++ [a, w] ∧ w.type = .INTEGER_CONSTANT) ∨
      (∃ a w d, res.children = node.children ++ [a, w, d] ∧
        w.type = .INTEGER_CONSTANT ∧ d.type = .INTEGER_CONSTANT) := by
  intro node st res st' h
  unfold parseWriteArguments at h
  dsimp only at h
  set st1 := (if (current st).type = TokenType.LPAREN then advance st
              else synError "Missing left parenthesis" st) with hst1
  rcases writeArgsArg_shape node st1 with ⟨ha, hflag⟩ | ⟨a, ha, hflag⟩
  · rw [hflag] at h
    simp only [Bool.false_eq_true, if_false] at h
    have hres : res = (writeArgsArg node st1).1 := by
      split at h <;> (simp only [Prod.mk.injEq] at h; exact h.1.symm)
    rw [hres, ha]
    exact Or.inl rfl
  · rw [hflag] at h
    simp only [if_true] at h
    have hres : res =
        (writeArgsWidth (writeArgsArg node st1).1 (writeArgsArg node st1).2.2).1 := by
      split at h <;> (simp only [Prod.mk.injEq] at h; exact h.1.symm)
    rcases writeArgsWidth_shape (writeArgsArg node st1).1 (writeArgsArg node st1).2.2 with
      hw | ⟨w, hw, hwt⟩ | ⟨w, d, hw, hwt, hdt⟩
    · rw [hres, hw, ha]
      exact Or.inr (Or.inl ⟨a, by simp⟩)
    · rw [hres, hw, ha]
      exact Or.inr (Or.inr (Or.inl ⟨a, w, by simp, hwt⟩))
    · rw [hres, hw, ha]
      exact Or.inr (Or.inr (Or.inr ⟨a, w, d, by simp, hwt, hdt⟩))

/-- C8 witness: the shape theorem applied to `("hi" : 5 : 2)` adopted into
a fresh WRITE node (the argument/width/decimals case). -/
theorem C8_write_args_width_before_decimals_wit :
    c8WitNode.children = (mkNode .WRITE).children ∨
    (∃ a, c8WitNode.children = (mkNode .WRITE).children ++ [a]) ∨
    (∃ a w, c8WitNode.children = (mkNode .WRITE).children ++ [a, w] ∧
      w.type = .INTEGER_CONSTANT) ∨
    (∃ a w d, c8WitNode.children = (mkNode .WRITE).children ++ [a, w, d] ∧
      w.type = .INTEGER_CONSTANT ∧ d.type = .INTEGER_CONSTANT) :=
  C8_write_args_width_before_decimals (mkNode .WRITE) (initState c8WitToks)
    c8WitNode (initState []) rfl

/-! ### C9: WRITE needs an argument, WRITELN does not -/

theorem writeArgsArg_fst_type (node : Node) (st : PState) :
    (writeArgsArg node st).1.type = node.type := by
  unfold writeArgsArg
  dsimp only
  repeat' split
  all_goals simp

theorem writeArgsWidth_fst_type (node : Node) (st : PState) :
    (writeArgsWidth node st).1.type = node.type := by
  unfold writeArgsWidth
  dsimp only
  repeat' split
  all_goals simp

theorem parseWriteArguments_fst_type (node : Node) (st : PState) :
    (parseWriteArguments node st).1.type = node.type := by
  unfold parseWriteArguments
  dsimp only
  repeat' split
  all_goals simp [writeArgsWidth_fst_type, writeArgsArg_fst_type]

/-- C9: (i) a `parseWriteStatement` result is always a WRITE node, and if
it comes back with the error count unchanged it has at least one child —
an argumentless WRITE raises the "Invalid WRITE statement" syntax error;
(ii) when the token after WRITELN is not `'('`, `parseWritelnStatement`
returns a childless WRITELN node, consumes only the WRITELN token, and
raises no error at all. -/
theorem C9_write_nonempty_writeln_empty :
    (∀ st n st', parseWriteStatement st = (n, st') →
        n.type = .WRITE ∧ (st'.errorCount = st.errorCount → n.children ≠ []))
    ∧ (∀ st : PState, (current (advance st)).type ≠ .LPAREN →
        parseWritelnStatement st = (mkNode .WRITELN, advance st)) := by
  constructor
  · intro st n st' h
    have hmono := parseWriteArguments_errorCount_le (mkNode .WRITE) (advance st)
    have htype := parseWriteArguments_fst_type (mkNode .WRITE) (advance st)
    unfold parseWriteStatement at h
    dsimp only at h
    split at h
    · rename_i hzero
      simp only [Prod.mk.injEq] at h
      obtain ⟨hn, hst⟩ := h
      constructor
      · rw [← hn, htype, mkNode_type]
      · intro he
        exfalso
        rw [← hst] at he
        simp only [synError_errorCount, advance_errorCount] at he hmono
        omega
    · rename_i hnz
      have hn : n = (parseWriteArguments (mkNode .WRITE) (advance st)).1 := by
        rw [h]
      constructor
      · rw [hn, htype, mkNode_type]
      · intro _ hnil
        apply hnz
        rw [hn] at hnil
        rw [hnil]
        rfl
  · intro st h
    unfold parseWritelnStatement
    dsimp only
    rw [if_neg h]

/-- C9 witness: the WRITE part applied to an error-free `WRITE("hi")`
(one child, unchanged error count), and the WRITELN part applied to
`WRITELN ;`. -/
theorem C9_write_nonempty_writeln_empty_wit :
    (c9WitNode.type = .WRITE ∧
      ((initState []).errorCount = (initState c9WitToks).errorCount →
        c9WitNode.children ≠ []))
    ∧ parseWritelnStatement (initState [tok .WRITELN "WRITELN", tok .SEMICOLON ";"]) =
        (mkNode .WRITELN, advance (initState [tok .WRITELN "WRITELN", tok .SEMICOLON ";"])) :=
  ⟨C9_write_nonempty_writeln_empty.1 (initState c9WitToks) c9WitNode (initState []) rfl,
   C9_write_nonempty_writeln_empty.2 (initState [tok .WRITELN "WRITELN", tok .SEMICOLON ";"])
     (by decide)⟩

/-! ### C10: the relational-operator mapping in parseExpression -/

theorem relOpNode_children (tt : TokenType) (op : Node) :
    relOpNode tt = some op → op.children = [] := by
  intro h
  unfold relOpNode at h
  repeat' split at h
  all_goals simp_all
  all_goals (rw [← h]; rfl)

/-- C10 (counterexample): on `1 = = 2 ;` the relational EQ node built by
`parseExpression` has exactly ONE child: the right-hand simple expression
fails with a syntax error ("Unexpected token" at the second `=`), its
recovery skips to the `;`, the parse returns the null pointer for the
right operand, and adopting a null child contributes nothing — so "every
relational node built there receives exactly two children" is false. -/
theorem C10_relational_two_children_cex :
    parseExpression 50 (initState c10Toks) =
      some (some (Node.mk .EQ "" .noVal 0 none [intNode 1]),
        { tokens := [tok .SEMICOLON ";"], lineNumber := 0, errorCount := 1,
          symtab := [],
          diags := [{ syntactic := true, line := 0, message := "Unexpected token",
                      tokenText := "=" }] }) ∧
    (Node.mk .EQ "" .noVal 0 none [intNode 1]).children.length = 1 :=
  ⟨rfl, rfl⟩

/-- C10 (amended): whenever the lookahead belongs to the
relational-operator set it is one of the six mapped kinds, so the null
fallback of the token-to-node mapping is unreachable; and whenever both
simple-expression operands parse to nodes, the relational node receives
exactly two children, left operand then right operand.  (When the
right-hand parse fails with a syntax error the relational node is left
with only the left operand — see the counterexample.) -/
theorem C10_relational_fallback_unreachable :
    (∀ tt ∈ relationalOperators, (relOpNode tt).isSome)
    ∧ (∀ f st lhs st1 rhs st2, drive f .simpleExpr st = some (some lhs, st1) →
        (current st1).type ∈ relationalOperators →
        ∀ op, relOpNode (current st1).type = some op →
        drive f .simpleExpr (advance st1) = some (some rhs, st2) →
          parseExpression (f + 1) st = some (some ((op.adopt lhs).adopt rhs), st2) ∧
          ((op.adopt lhs).adopt rhs).children = [lhs, rhs]) := by
  constructor
  · decide
  · intro f st lhs st1 rhs st2 h1 hrel op hop h2
    constructor
    · unfold parseExpression
      simp only [drive]
      rw [h1]
      simp only []
      rw [if_pos hrel, hop]
      simp only []
      rw [h2]
      simp [adoptN]
    · simp [relOpNode_children _ _ hop]

/-- C10 witness: the two-operand part applied to `1 = 2` (fuel 10 for the
operand parses, 11 for the enclosing expression), with the EQ mapping
discharged concretely. -/
theorem C10_relational_fallback_unreachable_wit :
    parseExpression 11 (initState c10WitToks) =
      some (some (((mkNode .EQ).adopt (intNode 1)).adopt (intNode 2)), initState []) ∧
    (((mkNode .EQ).adopt (intNode 1)).adopt (intNode 2)).children =
      [intNode 1, intNode 2] :=
  C10_relational_fallback_unreachable.2 10 (initState c10WitToks) (intNode 1)
    { tokens := [tok .EQUALS "=", intTok 2], lineNumber := 0, errorCount := 0,
      symtab := [], diags := [] }
    (intNode 2) (initState []) rfl (by decide) (mkNode .EQ) rfl rfl

/-! ### C2: loop kind is encoded by the TEST child's position -/

/-- A statement list always hands back the parent node it was populating
(only grown by adoptions, so its kind is unchanged). -/
theorem drive_stmtList_some :
    ∀ f parent terminal st r st',
      drive f (.stmtList parent terminal) st = some (r, st') →
      ∃ p, r = some p ∧ p.type = parent.type := by
  intro f
  induction f with
  | zero => intro parent terminal st r st' h; simp [drive] at h
  | succ f ih =>
    intro parent terminal st r st' h
    simp only [drive] at h
    split at h
    · simp only [Option.some.injEq, Prod.mk.injEq] at h
      obtain ⟨h1, -⟩ := h
      exact ⟨parent, h1.symm, rfl⟩
    · cases hd : drive f .statement st with
      | none => rw [hd] at h; simp at h
      | some p =>
        obtain ⟨stmtNode, st1⟩ := p
        rw [hd] at h
        simp only [] at h
        obtain ⟨q, hq, htype⟩ := ih _ _ _ _ _ h
        exact ⟨q, hq, by rw [htype]; simp⟩

/-- In the expression family, a run that raises no error produces a node
(never the null pointer): every null-returning path of `parseFactor`
(and hence of the layers above it) goes through a syntax error. -/
theorem drive_expr_some :
    ∀ f,
      (∀ st r st', drive f .factor st = some (r, st') →
        st'.errorCount = st.errorCount → ∃ n, r = some n)
      ∧ (∀ root st r st', drive f (.termLoop root) st = some (r, st') →
          root.isSome → ∃ n, r = some n)
      ∧ (∀ st r st', drive f .term st = some (r, st') →
          st'.errorCount = st.errorCount → ∃ n, r = some n)
      ∧ (∀ root st r st', drive f (.simpleLoop root) st = some (r, st') →
          root.isSome → ∃ n, r = some n)
      ∧ (∀ st r st', drive f .simpleExpr st = some (r, st') →
          st'.errorCount = st.errorCount → ∃ n, r = some n)
      ∧ (∀ st r st', drive f .expr st = some (r, st') →
          st'.errorCount = st.errorCount → ∃ n, r = some n) := by
  intro f
  induction f with
  | zero =>
    refine ⟨fun st r st' h => ?_, fun root st r st' h => ?_, fun st r st' h => ?_,
            fun root st r st' h => ?_, fun st r st' h => ?_, fun st r st' h => ?_⟩
    all_goals simp [drive] at h
  | succ f ih =>
    obtain ⟨ihF, ihTL, ihT, ihSL, ihSE, ihE⟩ := ih
    refine ⟨?_, ?_, ?_, ?_, ?_, ?_⟩
    · -- factor
      intro st r st' h he
      simp only [drive] at h
      split at h
      · simp only [Option.some.injEq, Prod.mk.injEq] at h
        exact ⟨_, h.1.symm⟩
      · simp only [Option.some.injEq, Prod.mk.injEq] at h
        exact ⟨_, h.1.symm⟩
      · simp only [Option.some.injEq, Prod.mk.injEq] at h
        exact ⟨_, h.1.symm⟩
      · -- LPAREN
        split at h
        · simp at h
        · rename_i q exprNode st2 heq
          have hm1 := drive_errorCount_le _ _ _ _ _ heq
          simp only [advance_errorCount] at hm1
          simp only [Option.some.injEq, Prod.mk.injEq] at h
          obtain ⟨h1, h2⟩ := h
          subst h2
          split at he
          · simp only [advance_errorCount] at he
            exact ihE _ _ _ heq (by simp; omega) |>.imp (fun n hn => h1 ▸ hn)
          · simp only [synError_errorCount] at he
            omega
      · -- default: syntax error
        simp only [Option.some.injEq, Prod.mk.injEq] at h
        obtain ⟨-, h2⟩ := h
        subst h2
        simp only [synError_errorCount] at he
        omega
    · -- termLoop
      intro root st r st' h hs
      simp only [drive] at h
      split at h
      · split at h
        · simp at h
        · rename_i q fa2 st2 heq
          exact ihTL _ _ _ _ h (by simp)
      · simp only [Option.some.injEq, Prod.mk.injEq] at h
        obtain ⟨h1, -⟩ := h
        obtain ⟨n, hn⟩ := Option.isSome_iff_exists.mp hs
        exact ⟨n, by rw [← h1, hn]⟩
    · -- term
      intro st r st' h he
      simp only [drive] at h
      cases hd : drive f .factor st with
      | none => rw [hd] at h; simp at h
      | some p =>
        obtain ⟨fa, st1⟩ := p
        rw [hd] at h
        simp only [] at h
        have hm1 := drive_errorCount_le _ _ _ _ _ hd
        have hm2 := drive_errorCount_le _ _ _ _ _ h
        obtain ⟨n, hn⟩ := ihF _ _ _ hd (by omega)
        subst hn
        exact ihTL _ _ _ _ h (by simp)
    · -- simpleLoop
      intro root st r st' h hs
      simp only [drive] at h
      split at h
      · split at h
        · simp at h
        · rename_i q t2 st2 heq
          exact ihSL _ _ _ _ h (by simp)
      · simp only [Option.some.injEq, Prod.mk.injEq] at h
        obtain ⟨h1, -⟩ := h
        obtain ⟨n, hn⟩ := Option.isSome_iff_exists.mp hs
        exact ⟨n, by rw [← h1, hn]⟩
    · -- simpleExpr
      intro st r st' h he
      simp only [drive] at h
      cases hd : drive f .term st with
      | none => rw [hd] at h; simp at h
      | some p =>
        obtain ⟨t, st1⟩ := p
        rw [hd] at h
        simp only [] at h
        have hm1 := drive_errorCount_le _ _ _ _ _ hd
        have hm2 := drive_errorCount_le _ _ _ _ _ h
        obtain ⟨n, hn⟩ := ihT _ _ _ hd (by omega)
        subst hn
        exact ihSL _ _ _ _ h (by simp)
    · -- expr
      intro st r st' h he
      simp only [drive] at h
      cases hd : drive f .simpleExpr st with
      | none => rw [hd] at h; simp at h
      | some p =>
        obtain ⟨exprNode, st1⟩ := p
        rw [hd] at h
        simp only [] at h
        have hm1 := drive_errorCount_le _ _ _ _ _ hd
        split at h
        · split at h
          · split at h
            · simp at h
            · rename_i q rhs st3 heq
              simp only [Option.some.injEq, Prod.mk.injEq] at h
              exact ⟨_, h.1.symm⟩
          · simp only [Option.some.injEq, Prod.mk.injEq] at h
            obtain ⟨h1, h2⟩ := h
            subst h2
            simp only [advance_errorCount] at he
            exact (ihSE _ _ _ hd (by omega)).imp (fun n hn => h1 ▸ hn)
        · simp only [Option.some.injEq, Prod.mk.injEq] at h
          obtain ⟨h1, h2⟩ := h
          subst h2
          exact (ihSE _ _ _ hd (by omega)).imp (fun n hn => h1 ▸ hn)

/-- C2: for loop statements parsed without error (error count unchanged):
a REPEAT...UNTIL yields a LOOP node whose LAST child is a TEST node
wrapping the until-expression, after the body statements the statement
list adopted; a WHILE...DO yields a LOOP node whose FIRST child is
TEST(NOT(condition)) and whose second child is the parsed body statement
(when the body is a node; an empty statement contributes none).  Both
yield kind LOOP — the loop flavour is carried only by the TEST child's
position, there is no separate tag. -/
theorem C2_loop_test_child_position :
    (∀ f st n st', parseRepeatStatement (f + 1) st = some (some n, st') →
        st'.errorCount = st.errorCount →
        n.type = .LOOP ∧
        ∃ lp st2 e,
          drive f (.stmtList (mkNode .LOOP) .UNTIL) (advance st) = some (some lp, st2) ∧
          (current st2).type = .UNTIL ∧
          drive f .expr (advance { st2 with lineNumber := (current st2).lineNumber }) =
            some (some e, st') ∧
          n.children = lp.children ++
            [Node.mk .TEST "" .noVal (current st2).lineNumber none [e]])
    ∧ (∀ f st n st', parseWhileStatement (f + 1) st = some (some n, st') →
        st'.errorCount = st.errorCount →
        n.type = .LOOP ∧
        ∃ cond st2 body,
          drive f .expr (advance st) = some (some cond, st2) ∧
          (current st2).type = .DO ∧
          drive f .statement (advance st2) = some (body, st') ∧
          n.children =
            Node.mk .TEST "" .noVal 0 none [Node.mk .NOT "" .noVal 0 none [cond]] ::
              body.toList) := by
  constructor
  · -- repeat
    intro f st n st' h he
    simp only [parseRepeatStatement, drive] at h
    cases hd : drive f (.stmtList (mkNode .LOOP) .UNTIL) (advance st) with
    | none => rw [hd] at h; simp at h
    | some p =>
      obtain ⟨lpr, st2⟩ := p
      rw [hd] at h
      simp only [] at h
      obtain ⟨lp, hlp, hlpt⟩ := drive_stmtList_some f _ _ _ _ _ hd
      subst hlp
      have hm1 := drive_errorCount_le _ _ _ _ _ hd
      simp only [advance_errorCount] at hm1
      split at h
      · rename_i hUNTIL
        split at h
        · simp at h
        · rename_i q er st4 heq
          have hm2 := drive_errorCount_le _ _ _ _ _ heq
          simp at hm2
          simp only [Option.some.injEq, Prod.mk.injEq] at h
          obtain ⟨hn, hst⟩ := h
          subst hst
          obtain ⟨e, rfl⟩ := (drive_expr_some f).2.2.2.2.2 _ _ _ heq (by simp; omega)
          constructor
          · rw [← hn]
            simp [hlpt]
          · refine ⟨lp, st2, e, rfl, hUNTIL, heq, ?_⟩
            rw [← hn]
            simp only [Option.getD_some, Node.adopt_children]
            rfl
      · simp only [Option.some.injEq, Prod.mk.injEq] at h
        obtain ⟨-, hst⟩ := h
        subst hst
        simp only [synError_errorCount] at he
        omega
  · -- while
    intro f st n st' h he
    simp only [parseWhileStatement, drive] at h
    cases hd : drive f .expr (advance st) with
    | none => rw [hd] at h; simp at h
    | some p =>
      obtain ⟨condr, st2⟩ := p
      rw [hd] at h
      simp only [] at h
      have hm1 := drive_errorCount_le _ _ _ _ _ hd
      simp only [advance_errorCount] at hm1
      split at h
      · rename_i hDO
        split at h
        · simp at h
        · rename_i q body st3 heq
          have hm2 := drive_errorCount_le _ _ _ _ _ heq
          simp at hm2
          simp only [Option.some.injEq, Prod.mk.injEq] at h
          obtain ⟨hn, hst⟩ := h
          subst hst
          obtain ⟨cond, rfl⟩ := (drive_expr_some f).2.2.2.2.2 _ _ _ hd (by simp; omega)
          constructor
          · rw [← hn]; simp
          · refine ⟨cond, st2, body, rfl, hDO, heq, ?_⟩
            rw [← hn]
            simp only [adoptN_children, Node.adopt_children, mkNode_children]
            rfl
      · simp only [Option.some.injEq, Prod.mk.injEq] at h
        obtain ⟨-, hst⟩ := h
        subst hst
        simp only [synError_errorCount] at he
        omega

/-- C2 witness: both parts applied to error-free concrete loops (for the
while loop, `x` is pre-declared so the condition raises no semantic
error). -/
theorem C2_loop_test_child_position_wit :
    (c2rNode.type = .LOOP ∧
      ∃ lp st2 e,
        drive 49 (.stmtList (mkNode .LOOP) .UNTIL) (advance (initState c2rToks)) =
          some (some lp, st2) ∧
        (current st2).type = .UNTIL ∧
        drive 49 .expr (advance { st2 with lineNumber := (current st2).lineNumber }) =
          some (some e, { tokens := [], lineNumber := 1, errorCount := 0,
                          symtab := ["x"], diags := [] }) ∧
        c2rNode.children = lp.children ++
          [Node.mk .TEST "" .noVal (current st2).lineNumber none [e]])
    ∧ (c2wNode.type = .LOOP ∧
      ∃ cond st2 body,
        drive 49 .expr (advance { initState c2wToks with symtab := ["x"] }) =
          some (some cond, st2) ∧
        (current st2).type = .DO ∧
        drive 49 .statement (advance st2) =
          some (body, { tokens := [], lineNumber := 1, errorCount := 0,
                        symtab := ["x"], diags := [] }) ∧
        c2wNode.children =
          Node.mk .TEST "" .noVal 0 none [Node.mk .NOT "" .noVal 0 none [cond]] ::
            body.toList) :=
  ⟨C2_loop_test_child_position.1 49 (initState c2rToks) c2rNode
     { tokens := [], lineNumber := 1, errorCount := 0, symtab := ["x"], diags := [] }
     rfl rfl,
   C2_loop_test_child_position.2 49 { initState c2wToks with symtab := ["x"] } c2wNode
     { tokens := [], lineNumber := 1, errorCount := 0, symtab := ["x"], diags := [] }
     rfl rfl⟩

/-! ### C3: precedence and left associativity -/

/-- One-step unfolding equations for `drive`, used to drive symbolic
evaluation without cascading. -/
theorem drive_factor_unfold (f : Nat) (st : PState) :
    drive (f + 1) .factor st =
      (match (current st).type with
       | TokenType.IDENTIFIER => some (some (parseVariable st).1, (parseVariable st).2)
       | TokenType.INTEGER =>
           some (some (parseIntegerConstant st).1, (parseIntegerConstant st).2)
       | TokenType.REAL => some (some (parseRealConstant st).1, (parseRealConstant st).2)
       | TokenType.LPAREN =>
           match drive f .expr (advance st) with
           | none => none
           | some (exprNode, st2) =>
             some (exprNode, if (current st2).type = .RPAREN then advance st2
                             else synError "Expecting )" st2)
       | _ => some (none, synError "Unexpected token" st)) := rfl

theorem drive_term_unfold (f : Nat) (st : PState) :
    drive (f + 1) .term st =
      (match drive f .factor st with
       | none => none
       | some (fa, st1) => drive f (.termLoop fa) st1) := rfl

theorem drive_termLoop_unfold (f : Nat) (root : Option Node) (st : PState) :
    drive (f + 1) (.termLoop root) st =
      (if (current st).type ∈ termOperators then
        match drive f .factor (advance st) with
        | none => none
        | some (fa2, st2) =>
          drive f (.termLoop (some (adoptN (adoptN
            (mkNode (if (current st).type = .STAR then .MULTIPLY else .DIVIDE))
            root) fa2))) st2
      else some (root, st)) := rfl

theorem drive_simpleExpr_unfold (f : Nat) (st : PState) :
    drive (f + 1) .simpleExpr st =
      (match drive f .term st with
       | none => none
       | some (t, st1) => drive f (.simpleLoop t) st1) := rfl

theorem drive_simpleLoop_unfold (f : Nat) (root : Option Node) (st : PState) :
    drive (f + 1) (.simpleLoop root) st =
      (if (current st).type ∈ simpleExpressionOperators then
        match drive f .term (advance st) with
        | none => none
        | some (t2, st2) =>
          drive f (.simpleLoop (some (adoptN (adoptN
            (mkNode (if (current st).type = .PLUS then .ADD else .SUBTRACT))
            root) t2))) st2
      else some (root, st)) := rfl

/-- `parseFactor` on an INTEGER lookahead yields the INTEGER_CONSTANT
node and consumes one token. -/
theorem drive_factor_int (g : Nat) (st : PState)
    (h1 : (current st).type = .INTEGER) :
    drive (g + 1) .factor st =
      some (some (Node.mk .INTEGER_CONSTANT "" (current st).value 0 none []),
        advance st) := by
  rw [drive_factor_unfold, h1]
  rfl

/-- The `*`/`/` while-loop exits immediately when the lookahead is not a
term operator. -/
theorem drive_termLoop_exit (g : Nat) (root : Option Node) (st : PState)
    (h : ¬ ((current st).type ∈ termOperators)) :
    drive (g + 1) (.termLoop root) st = some (root, st) := by
  rw [drive_termLoop_unfold, if_neg h]

/-- `parseTerm` on an INTEGER lookahead not followed by `*` or `/` yields
just the INTEGER_CONSTANT node. -/
theorem drive_term_int (g : Nat) (st : PState)
    (h1 : (current st).type = .INTEGER)
    (h2 : ¬ ((current (advance st)).type ∈ termOperators)) :
    drive (g + 2) .term st =
      some (some (Node.mk .INTEGER_CONSTANT "" (current st).value 0 none []),
        advance st) := by
  have hfuel : g + 2 = (g + 1) + 1 := rfl
  rw [hfuel, drive_term_unfold (g + 1), drive_factor_int g st h1]
  simp only []
  exact drive_termLoop_exit g _ _ h2

/-- The `+`/`-` while-loop folds left-to-right: over a pure `+` chain it
builds `foldAdd` of the carried root. -/
theorem drive_simpleLoop_chain : ∀ (vs : List Int) (root : Node),
    drive (vs.length + 2) (.simpleLoop (some root)) (initState (chainRest vs)) =
      some (some (foldAdd root vs), initState []) := by
  intro vs
  induction vs with
  | nil =>
    intro root
    have hfuel : ([] : List Int).length + 2 = 1 + 1 := rfl
    rw [hfuel, drive_simpleLoop_unfold 1]
    rw [if_neg (by decide)]
    rfl
  | cons w ws ih =>
    intro root
    have hfuel : (w :: ws).length + 2 = (ws.length + 2) + 1 := by
      simp [List.length_cons]
    rw [hfuel, drive_simpleLoop_unfold (ws.length + 2)]
    have hplus : (current (initState (chainRest (w :: ws)))).type ∈
        simpleExpressionOperators := by
      show TokenType.PLUS ∈ simpleExpressionOperators
      decide
    rw [if_pos hplus]
    have hterm := drive_term_int ws.length
      (advance (initState (chainRest (w :: ws))))
      (show TokenType.INTEGER = TokenType.INTEGER from rfl)
      (by cases ws with
          | nil => show ¬ (TokenType.END_OF_FILE ∈ termOperators); decide
          | cons w2 ws2 => show ¬ (TokenType.PLUS ∈ termOperators); decide)
    rw [hterm]
    simp only []
    exact ih (((mkNode .ADD).adopt root).adopt (intNode w))

/-- A `v + w1 + ... + wk` simple expression parses to the left-nested
`foldAdd` tree (C3's general left-associativity statement). -/
theorem drive_simpleExpr_chain (v : Int) (vs : List Int) :
    parseSimpleExpression (vs.length + 3) (initState (chainToks v vs)) =
      some (some (foldAdd (intNode v) vs), initState []) := by
  unfold parseSimpleExpression
  have hfuel : vs.length + 3 = (vs.length + 2) + 1 := rfl
  rw [hfuel, drive_simpleExpr_unfold (vs.length + 2)]
  have hterm := drive_term_int vs.length (initState (chainToks v vs))
    (show TokenType.INTEGER = TokenType.INTEGER from rfl)
    (by cases vs with
        | nil => show ¬ (TokenType.END_OF_FILE ∈ termOperators); decide
        | cons w2 ws2 => show ¬ (TokenType.PLUS ∈ termOperators); decide)
  rw [hterm]
  simp only []
  exact drive_simpleLoop_chain vs (intNode v)

/-- C3: `x := 1 + 2 * 3` parses to
`ASSIGN(VARIABLE(x), ADD(INTEGER_CONSTANT(1), MULTIPLY(INTEGER_CONSTANT(2),
INTEGER_CONSTANT(3))))`; an arbitrary `+` chain folds left-to-right
(each step puts the accumulated tree as the LEFT child — the general
`foldAdd` statement); mixed `-`/`+` and `/` chains are left-associative
(`1 - 2 + 3` is `ADD(SUBTRACT(1,2),3)`, `8 / 4 / 2` is
`DIVIDE(DIVIDE(8,4),2)`). -/
theorem C3_precedence_left_assoc :
    parseAssignmentStatement 50 (initState c3Toks) =
      some (some c3Node,
        { tokens := [tok .SEMICOLON ";"], lineNumber := 0, errorCount := 0,
          symtab := ["x"], diags := [] })
    ∧ (∀ (v : Int) (vs : List Int),
        parseSimpleExpression (vs.length + 3) (initState (chainToks v vs)) =
          some (some (foldAdd (intNode v) vs), initState []))
    ∧ parseExpression 50
        (initState [intTok 1, tok .MINUS "-", intTok 2, tok .PLUS "+", intTok 3]) =
        some (some (Node.mk .ADD "" .noVal 0 none
          [Node.mk .SUBTRACT "" .noVal 0 none [intNode 1, intNode 2], intNode 3]),
          initState [])
    ∧ parseExpression 50
        (initState [intTok 8, tok .SLASH "/", intTok 4, tok .SLASH "/", intTok 2]) =
        some (some (Node.mk .DIVIDE "" .noVal 0 none
          [Node.mk .DIVIDE "" .noVal 0 none [intNode 8, intNode 4], intNode 2]),
          initState []) :=
  ⟨rfl, drive_simpleExpr_chain, rfl, rfl⟩

/-! ### C7: error recovery, error counting, and (non-)termination -/

theorem drive_stmtList_unfold (f : Nat) (parent : Node) (terminal : TokenType)
    (st : PState) :
    drive (f + 1) (.stmtList parent terminal) st =
      (if (current st).type = terminal ∨ (current st).type = .END_OF_FILE then
        some (some parent, st)
      else
        match drive f .statement st with
        | none => none
        | some (stmtNode, st1) =>
          drive f (.stmtList (adoptN parent stmtNode) terminal) (sepStep st1)) := rfl

theorem drive_program_unfold (f : Nat) (st : PState) :
    drive (f + 1) .program st =
      (match drive f .compound (programPrelude st).2 with
       | none => none
       | some (cmp, st5) =>
         some (some (adoptN (programPrelude st).1 cmp),
           if (current st5).type = .SEMICOLON then synError "Expecting ." st5
           else st5)) := rfl

theorem drive_compound_unfold (f : Nat) (st : PState) :
    drive (f + 1) .compound st =
      (match drive f (.stmtList ((mkNode .COMPOUND).setLine (current st).lineNumber)
          .END) (advance st) with
       | none => none
       | some (cmp, st2) =>
         some (cmp, if (current st2).type = .END then advance st2
                    else synError "Expecting END" st2)) := rfl

/-- With the lookahead at `DO` inside a statement list terminated by END,
the parser makes no progress at any fuel: `parseStatement` reports
"Unexpected token", but the recovery skips nothing (`DO` is a statement
follower), the separator step consumes nothing (`DO` is no statement
starter), and the loop retries the same token forever. -/
theorem drive_stmtList_DO_stuck :
    ∀ f (parent : Node) (ln ec : Nat) (tab : List String) (ds : List Diag),
      drive f (.stmtList parent .END) (stuckSt ln ec tab ds) = none := by
  intro f
  induction f with
  | zero => intro parent ln ec tab ds; rfl
  | succ f ih =>
    intro parent ln ec tab ds
    cases f with
    | zero => rfl
    | succ g =>
      rw [drive_stmtList_unfold (g + 1)]
      have hne : ¬ ((current (stuckSt ln ec tab ds)).type = .END ∨
          (current (stuckSt ln ec tab ds)).type = .END_OF_FILE) := by
        show ¬ (TokenType.DO = TokenType.END ∨ TokenType.DO = TokenType.END_OF_FILE)
        decide
      rw [if_neg hne]
      have hstmt : drive (g + 1) .statement (stuckSt ln ec tab ds) =
          some (none, synError "Unexpected token" (stuckSt 1 ec tab ds)) := rfl
      rw [hstmt]
      simp only []
      exact ih parent 1 (ec + 1) tab
        (ds ++ [{ syntactic := true, line := 1, message := "Unexpected token",
                  tokenText := "DO" }])

/-- C7: `parseProgram` does NOT always return a PROGRAM root: on
`PROGRAM p ; BEGIN DO END` it runs forever (at every fuel the run is
still unfinished).  The statement list sees `DO`, `parseStatement`
raises "Unexpected token", but the panic-mode skip stops immediately
(`DO` is in the statement-follower set) and the list neither consumes
`DO` nor treats it as its terminator, so the same token is retried
without end. -/
theorem C7_parseProgram_diverges_on_DO :
    ∀ f, parseProgram f (initState c7Toks) = none := by
  intro f
  cases f with
  | zero => rfl
  | succ f =>
    unfold parseProgram
    rw [drive_program_unfold f]
    cases f with
    | zero => rfl
    | succ g =>
      rw [drive_compound_unfold g]
      rw [show drive g (.stmtList ((mkNode .COMPOUND).setLine
            (current (programPrelude (initState c7Toks)).2).lineNumber) .END)
            (advance (programPrelude (initState c7Toks)).2) = none from
          drive_stmtList_DO_stuck g _ 0 0 ["p"] []]

end SimpleCpp
